import Mathlib

/-!
Shallow embedding of `examples/strategies/ema_cross_market_entry.py`
(class `EMACrossMarketEntryPy`).

Modelling conventions:
* Python floats and `Price`/`Quantity` values are modelled as exact
  rationals (`ℚ`); the `Price(...)` wrapper is the identity on the value.
* The strategy's mutable `self` fields that the handlers read are
  collected in `StrategyState`.  Values produced by external collaborator
  objects (the `SpreadAnalyzer`'s `average_spread` after
  `calculate_metrics`, `account.free_equity`, `get_exchange_rate`, the
  position id from `position_id_generator.generate()`) are fields of the
  state holding the value the collaborator returns during this handler
  call; their internal computations live outside the repository.
* `FixedRiskSizer.calculate` (module `nautilus_trader.trade.sizing`, not
  part of the repository files) is passed in as an opaque function
  argument `sizer : SizerArgs → ℚ`, applied to exactly the arguments the
  strategy passes at the call sites.
* A handler's observable effects (log lines, order submission,
  modification and flatten commands) are returned as a list of `Action`s
  in program order.
-/

namespace EmaCrossMarketEntry

/-- Instrument symbols (`nautilus_trader.model.identifiers.Symbol`),
identified by their string value; `Symbol.equals` is equality. -/
abbrev Symbol := String

/-- The fields of `Instrument` that the strategy reads. -/
structure Instrument where
  symbol : Symbol
  tick_size : ℚ
  tick_precision : ℕ
  quote_currency : String
  deriving DecidableEq

/-- A market tick; the strategy reads only `bid` and `ask`. -/
structure Tick where
  bid : ℚ
  ask : ℚ
  deriving DecidableEq

/-- An OHLCV bar; the strategy reads `high` and `low`. -/
structure Bar where
  open_ : ℚ
  high : ℚ
  low : ℚ
  close : ℚ
  volume : ℚ
  deriving DecidableEq

/-- `nautilus_trader.model.enums.OrderSide` (the two sides used here). -/
inductive OrderSide where
  | buy
  | sell
  deriving DecidableEq

/-- `nautilus_trader.model.enums.OrderPurpose` values used by the strategy. -/
inductive OrderPurpose where
  | entry
  | stop_loss
  | take_profit
  deriving DecidableEq

/-- The fields of a working order that `on_bar`'s trailing-stop loop reads:
`purpose`, `is_sell`/`is_buy` (derived from the side), `price`, `quantity`. -/
structure Order where
  side : OrderSide
  purpose : OrderPurpose
  quantity : ℚ
  price : ℚ
  deriving DecidableEq

/-- `working_order.is_sell` in the source. -/
def Order.is_sell (o : Order) : Bool :=
  match o.side with
  | OrderSide.sell => true
  | OrderSide.buy => false

/-- `working_order.is_buy` in the source. -/
def Order.is_buy (o : Order) : Bool :=
  match o.side with
  | OrderSide.buy => true
  | OrderSide.sell => false

/-- The argument record of `self.order_factory.atomic_market(...)`
(an atomic MARKET entry with stop-loss and take-profit legs; a market
entry carries no entry price of its own). -/
structure AtomicOrder where
  symbol : Symbol
  order_side : OrderSide
  quantity : ℚ
  price_stop_loss : ℚ
  price_take_profit : ℚ
  deriving DecidableEq

/-- The observable commands a handler issues, in program order. -/
inductive Action where
  | submitAtomic (order : AtomicOrder) (position_id : ℕ)
  | modifyOrder (order : Order) (quantity : ℚ) (price : ℚ)
  | flattenPosition (position_id : ℕ)
  | logInfo (msg : String)
  deriving DecidableEq

/-- `true` for actions that are trading actions (order construction,
submission, modification or flattening); `false` for pure log output. -/
def Action.isTrading : Action → Bool
  | Action.logInfo _ => false
  | _ => true

/-- `true` exactly for atomic-order submissions. -/
def Action.isSubmit : Action → Bool
  | Action.submitAtomic _ _ => true
  | _ => false

/-- The arguments of `FixedRiskSizer.calculate` exactly as passed at the
two call sites in `on_bar`. -/
structure SizerArgs where
  equity : ℚ
  exchange_rate : ℚ
  risk_bp : ℚ
  price_entry : ℚ
  price_stop_loss : ℚ
  commission_rate_bp : ℚ
  hard_limit : ℚ
  units : ℕ
  unit_batch_size : ℕ
  deriving DecidableEq

/-- The external position sizer: `nautilus_trader.trade.sizing.FixedRiskSizer
.calculate`, not part of the repository files, so kept opaque.  The returned
rational is the quantity's `value`. -/
abbrev Sizer := SizerArgs → ℚ

/-- The strategy state read by `on_bar` / `on_instrument`.  Indicator
values and initialization flags stand for `self.fast_ema.value`,
`self.fast_ema.initialized`, etc. (the indicator classes live in the
external `nautilus_indicators` package).  `ticks` is the recent-tick
buffer for `self.symbol`, most recent first, so `self.tick(self.symbol,
index=0)` is its head. -/
structure StrategyState where
  symbol : Symbol
  risk_bp : ℚ
  SL_atr_multiple : ℚ
  instrument : Option Instrument
  fast_ema_value : ℚ
  fast_ema_initialized : Bool
  slow_ema_value : ℚ
  slow_ema_initialized : Bool
  atr_value : ℚ
  atr_initialized : Bool
  ticks : List Tick
  orders_working : List Order
  is_flat : Bool
  average_spread : ℚ
  free_equity : ℚ
  exchange_rate : ℚ
  next_position_id : ℕ
  deriving DecidableEq

/-- `self.indicators_initialized()`: all three registered indicators
(fast EMA, slow EMA, ATR) report initialized. -/
def indicators_initialized (s : StrategyState) : Bool :=
  s.fast_ema_initialized && s.slow_ema_initialized && s.atr_initialized

/-- `self.has_ticks(self.symbol)`: the tick buffer is non-empty. -/
def has_ticks (s : StrategyState) : Bool :=
  !s.ticks.isEmpty

/-- The argument record built at both `position_sizer.calculate` call
sites: `equity=self.account.free_equity`, the exchange rate from
`get_exchange_rate`, `risk_bp=self.risk_bp`, the two prices, and the
literals `commission_rate_bp=0.15`, `hard_limit=20000000`, `units=1`,
`unit_batch_size=10000`. -/
def entrySizerArgs (s : StrategyState) (price_entry price_stop_loss : ℚ) : SizerArgs :=
  { equity := s.free_equity
    exchange_rate := s.exchange_rate
    risk_bp := s.risk_bp
    price_entry := price_entry
    price_stop_loss := price_stop_loss
    commission_rate_bp := 15 / 100
    hard_limit := 20000000
    units := 1
    unit_batch_size := 10000 }

/-- The entry block of `on_bar` (source lines 124-184): guarded by
`len(self.orders_working()) == 0 and self.is_flat()`; BUY logic when
`self.fast_ema.value >= self.slow_ema.value`, otherwise SELL logic; the
atomic order is submitted only when the sizer's quantity is `> 0`,
otherwise an insufficient-equity message is logged.  The `[]` branches of
the tick match are unreachable in `on_bar`, which runs this block only
behind the `has_ticks` guard. -/
def entryDecision (sizer : Sizer) (s : StrategyState) (bar : Bar) : List Action :=
  if s.orders_working.length = 0 ∧ s.is_flat = true then
    if s.slow_ema_value ≤ s.fast_ema_value then
      match s.ticks with
      | [] => []
      | t :: _ =>
        let price_entry := t.ask
        let price_stop_loss := bar.low - s.atr_value * s.SL_atr_multiple
        let price_take_profit := price_entry + (price_entry - price_stop_loss)
        let position_size := sizer (entrySizerArgs s price_entry price_stop_loss)
        if position_size > 0 then
          [Action.submitAtomic
            { symbol := s.symbol
              order_side := OrderSide.buy
              quantity := position_size
              price_stop_loss := price_stop_loss
              price_take_profit := price_take_profit }
            s.next_position_id]
        else
          [Action.logInfo "Insufficient equity for BUY signal."]
    else
      match s.ticks with
      | [] => []
      | t :: _ =>
        let price_entry := t.bid
        let price_stop_loss := bar.high + s.atr_value * s.SL_atr_multiple + s.average_spread
        let price_take_profit := price_entry - (price_stop_loss - price_entry)
        let position_size := sizer (entrySizerArgs s price_entry price_stop_loss)
        if position_size > 0 then
          [Action.submitAtomic
            { symbol := s.symbol
              order_side := OrderSide.sell
              quantity := position_size
              price_stop_loss := price_stop_loss
              price_take_profit := price_take_profit }
            s.next_position_id]
        else
          [Action.logInfo "Insufficient equity for SELL signal."]
  else []

/-- One iteration of the trailing-stop loop (source lines 187-199) for a
single working order: only orders of purpose `STOP_LOSS` are touched;
a sell-side order's candidate is `bar.low - atr.value * SL_atr_multiple`
and a modification is requested only when the candidate exceeds the
current price; a buy-side order's candidate is
`bar.high + atr.value * SL_atr_multiple + average_spread` and a
modification is requested only when the candidate is below the current
price. -/
def trailingModify (mult atr spread : ℚ) (bar : Bar) (o : Order) : Option Action :=
  if o.purpose = OrderPurpose.stop_loss then
    if o.is_sell then
      let temp_price := bar.low - atr * mult
      if temp_price > o.price then some (Action.modifyOrder o o.quantity temp_price)
      else none
    else if o.is_buy then
      let temp_price := bar.high + atr * mult + spread
      if temp_price < o.price then some (Action.modifyOrder o o.quantity temp_price)
      else none
    else none
  else none

/-- `on_bar` (source lines 103-199).  It first logs the received bar,
returns early when not all indicators are initialized (line 114), then
when no tick has been recorded (line 117); otherwise it runs the entry
block and then the trailing-stop loop over every working order.
(`spread_analyzer.calculate_metrics()` and `liquidity.update(...)` mutate
external analyzer objects only; `average_spread` holds the value the
analyzer exposes after `calculate_metrics`.) -/
def on_bar (sizer : Sizer) (s : StrategyState) (bar : Bar) : List Action :=
  Action.logInfo "Received Bar" ::
    (if !(indicators_initialized s) then []
     else if !(has_ticks s) then []
     else
       entryDecision sizer s bar ++
         s.orders_working.filterMap
           (trailingModify s.SL_atr_multiple s.atr_value s.average_spread bar))

/-- The result of a position lookup (`self.position_for_order`): id and
open flag are the two fields the handler reads. -/
structure Position where
  id : ℕ
  is_open : Bool
  deriving DecidableEq

/-- The events dispatched to `on_event`; an `OrderRejected` carries the
rejected order's id, and (for stating purpose-independence) the purpose
of the order it rejects, which the handler never inspects. -/
inductive Event where
  | orderRejected (order_id : ℕ) (purpose : OrderPurpose)
  | accountEvent
  | timeEvent
  deriving DecidableEq

/-- `on_event` (source lines 212-224): on an `OrderRejected` event it
looks up `self.position_for_order(event.order_id)` (the base-class order
→ position index, passed in as `position_for_order`) and flattens the
position when one exists and is open; any other event produces no
action. -/
def on_event (position_for_order : ℕ → Option Position) (e : Event) : List Action :=
  match e with
  | Event.orderRejected order_id _purpose =>
    match position_for_order order_id with
    | some position =>
      if position.is_open then [Action.flattenPosition position.id] else []
    | none => []
  | _ => []

/-- `on_instrument` (source lines 201-210): replaces the cached
instrument when `self.instrument.symbol.equals(instrument.symbol)`, then
logs.  Reading `self.instrument.symbol` with no cached instrument would
raise (`self.instrument` is `None` until `on_start`); `none` models that
failure. -/
def on_instrument (s : StrategyState) (instrument : Instrument) :
    Option (StrategyState × List Action) :=
  match s.instrument with
  | none => none
  | some cached =>
    if cached.symbol = instrument.symbol then
      some ({ s with instrument := some instrument },
            [Action.logInfo "Updated instrument."])
    else
      some (s, [Action.logInfo "Updated instrument."])

/-- The strategy fields assigned by `__init__` (source lines 31-74). -/
structure InitState where
  symbol : Symbol
  risk_bp : ℚ
  entry_buffer : ℚ
  SL_buffer : ℚ
  SL_atr_multiple : ℚ
  instrument : Option Instrument
  fast_ema_period : ℤ
  slow_ema_period : ℤ
  atr_period : ℤ
  deriving DecidableEq

/-- `__init__` (source lines 31-74): calls the base constructor with
`order_id_tag=symbol.code, bar_capacity=40`, assigns the configuration
values to fields unchanged, and constructs the three indicators with the
period arguments.  The body contains no domain check and no raise on any
of `risk_bp`, `fast_ema`, `slow_ema`, `atr_period`, `sl_atr_multiple`;
`risk_bp` and `sl_atr_multiple` are only stored, flowing into no
constructor call.  `Option` models the possibility of the constructor
raising: the visible code raises on no path, so the result is always
`some`.  (The EMA/ATR period arguments are forwarded to constructors in
the external `nautilus_indicators` package, outside this repository's
files; their stored periods are recorded here.) -/
def strategyInit (symbol : Symbol) (risk_bp : ℚ) (fast_ema slow_ema atr_period : ℤ)
    (sl_atr_multiple : ℚ) : Option InitState :=
  some
    { symbol := symbol
      risk_bp := risk_bp
      entry_buffer := 0
      SL_buffer := 0
      SL_atr_multiple := sl_atr_multiple
      instrument := none
      fast_ema_period := fast_ema
      slow_ema_period := slow_ema
      atr_period := atr_period }

/-- The per-bar inputs of one trailing-stop recomputation on some later
bar: the bar itself and the `atr.value` / `average_spread` readings the
strategy takes on that bar. -/
structure BarStep where
  bar : Bar
  atr_value : ℚ
  average_spread : ℚ
  deriving DecidableEq

/-- The stop price a working order holds after the trailing-stop loop
processed one bar, assuming the requested modification (if any) is
applied: the modified price when `trailingModify` requests one,
otherwise the unchanged current price. -/
def trailingNewPrice (mult atr spread : ℚ) (bar : Bar) (o : Order) : ℚ :=
  match trailingModify mult atr spread bar o with
  | some (Action.modifyOrder _ _ p) => p
  | _ => o.price

/-- The working order after the trailing-stop loop processed one bar. -/
def trailStep (mult : ℚ) (o : Order) (st : BarStep) : Order :=
  { o with price := trailingNewPrice mult st.atr_value st.average_spread st.bar o }

/-- The working order after the trailing-stop loop processed a sequence
of bars in order. -/
def trailStop (mult : ℚ) (o : Order) (steps : List BarStep) : Order :=
  steps.foldl (trailStep mult) o

/-- A sizer reporting a constant positive quantity, for concrete runs. -/
def sizerTenK : Sizer := fun _ => 10000

/-- A sizer reporting a zero quantity, for concrete runs. -/
def sizerZero : Sizer := fun _ => 0

/-- A concrete bar for concrete runs. -/
def sampleBar : Bar :=
  { open_ := 98, high := 101, low := 95, close := 100, volume := 1000 }

/-- A concrete tick for concrete runs. -/
def sampleTick : Tick := { bid := 99, ask := 100 }

/-- A warmed-up, flat strategy state with one recorded tick, no working
orders, ATR value 5 and `SL_atr_multiple` 2 (the spec's scenario). -/
def warmState : StrategyState :=
  { symbol := "AUDUSD.FXCM"
    risk_bp := 10
    SL_atr_multiple := 2
    instrument := none
    fast_ema_value := 2
    fast_ema_initialized := true
    slow_ema_value := 1
    slow_ema_initialized := true
    atr_value := 5
    atr_initialized := true
    ticks := [sampleTick]
    orders_working := []
    is_flat := true
    average_spread := 1
    free_equity := 100000
    exchange_rate := 1
    next_position_id := 7 }

/-- `warmState` with the fast EMA below the slow EMA (SELL signal). -/
def sellSignalState : StrategyState := { warmState with fast_ema_value := 0 }

/-- `warmState` with the ATR not yet initialized (warm-up pending). -/
def coldState : StrategyState := { warmState with atr_initialized := false }

/-- `warmState` with an empty tick buffer. -/
def noTickState : StrategyState := { warmState with ticks := [] }

/-- A working sell-side stop-loss order protecting a long position. -/
def sellStopOrder : Order :=
  { side := OrderSide.sell, purpose := OrderPurpose.stop_loss, quantity := 3, price := 90 }

/-- A strategy state holding `sellStopOrder` as its only working order,
not flat, with ATR value 2. -/
def trailingOrderState : StrategyState :=
  { warmState with orders_working := [sellStopOrder], is_flat := false, atr_value := 2 }

/-- A two-bar trailing sequence for concrete runs. -/
def sampleSteps : List BarStep :=
  [{ bar := sampleBar, atr_value := 2, average_spread := 1 },
   { bar := { sampleBar with low := 97, high := 99 }, atr_value := 1, average_spread := 1 }]

/-- A concrete cached instrument. -/
def audUsd : Instrument :=
  { symbol := "AUDUSD.FXCM", tick_size := 1 / 10000, tick_precision := 5,
    quote_currency := "USD" }

/-- An updated instrument for the same symbol (changed tick size). -/
def audUsdNew : Instrument := { audUsd with tick_size := 2 / 10000 }

/-- An instrument for a different symbol. -/
def gbpUsd : Instrument :=
  { symbol := "GBPUSD.FXCM", tick_size := 1 / 10000, tick_precision := 5,
    quote_currency := "USD" }

/-- `warmState` with `audUsd` cached as the strategy's instrument. -/
def instrState : StrategyState := { warmState with instrument := some audUsd }

/-- A concrete order → position lookup: order 1 maps to an open position,
order 3 to a closed one, every other order to no position. -/
def samplePositions : ℕ → Option Position := fun n =>
  if n = 1 then some { id := 11, is_open := true }
  else if n = 3 then some { id := 13, is_open := false }
  else none

/-- When the trailing-stop loop emits an action for a working order, the
order is a stop-loss and the action modifies it to the side's candidate
price, requested only when the candidate strictly tightens the price. -/
theorem trailingModify_some (m a sp : ℚ) (bar : Bar) (o : Order) (act : Action)
    (h : trailingModify m a sp bar o = some act) :
    o.purpose = OrderPurpose.stop_loss ∧
    ((o.side = OrderSide.sell ∧
        act = Action.modifyOrder o o.quantity (bar.low - a * m) ∧
        o.price < bar.low - a * m) ∨
     (o.side = OrderSide.buy ∧
        act = Action.modifyOrder o o.quantity (bar.high + a * m + sp) ∧
        bar.high + a * m + sp < o.price)) := by
  unfold trailingModify at h
  cases hs : o.side <;> simp [Order.is_sell, Order.is_buy, hs] at h <;>
    obtain ⟨h1, h2, h3⟩ := h <;> exact ⟨h1, by simp [h3.symm, h2]⟩

/-- The entry block runs only behind the flat-and-no-working-orders guard. -/
theorem entryDecision_guard (sizer : Sizer) (s : StrategyState) (bar : Bar)
    (a : Action) (ha : a ∈ entryDecision sizer s bar) :
    s.orders_working = [] ∧ s.is_flat = true := by
  simp only [entryDecision] at ha
  split at ha
  case isTrue hg => exact ⟨List.length_eq_zero.mp hg.1, hg.2⟩
  case isFalse => simp at ha

/-- The entry block never requests an order modification. -/
theorem entryDecision_no_modify (sizer : Sizer) (s : StrategyState) (bar : Bar)
    (o : Order) (q p : ℚ) :
    Action.modifyOrder o q p ∉ entryDecision sizer s bar := by
  intro ha
  simp only [entryDecision] at ha
  repeat' split at ha
  all_goals simp at ha

/-- The entry block issues at most one action per bar. -/
theorem entryDecision_length_le (sizer : Sizer) (s : StrategyState) (bar : Bar) :
    (entryDecision sizer s bar).length ≤ 1 := by
  simp only [entryDecision]
  repeat' split
  all_goals simp

/-- BUY entry: behind the guard, with the fast EMA at or above the slow
EMA, a recorded tick and a positive sized quantity, the entry block
submits exactly one BUY atomic market order priced from the current ask,
`bar.low - atr.value * SL_atr_multiple` and the 1R take-profit. -/
theorem entryDecision_buy_eq (sizer : Sizer) (s : StrategyState) (bar : Bar)
    (t : Tick) (ts : List Tick)
    (hw : s.orders_working = []) (hf : s.is_flat = true)
    (hx : s.slow_ema_value ≤ s.fast_ema_value) (hts : s.ticks = t :: ts)
    (hq : 0 < sizer (entrySizerArgs s t.ask (bar.low - s.atr_value * s.SL_atr_multiple))) :
    entryDecision sizer s bar =
      [Action.submitAtomic
        { symbol := s.symbol
          order_side := OrderSide.buy
          quantity := sizer (entrySizerArgs s t.ask (bar.low - s.atr_value * s.SL_atr_multiple))
          price_stop_loss := bar.low - s.atr_value * s.SL_atr_multiple
          price_take_profit :=
            t.ask + (t.ask - (bar.low - s.atr_value * s.SL_atr_multiple)) }
        s.next_position_id] := by
  simp [entryDecision, hw, hf, hx, hts, hq]

/-- SELL entry: symmetric to `entryDecision_buy_eq`, priced from the
current bid with the spread-widened stop. -/
theorem entryDecision_sell_eq (sizer : Sizer) (s : StrategyState) (bar : Bar)
    (t : Tick) (ts : List Tick)
    (hw : s.orders_working = []) (hf : s.is_flat = true)
    (hx : s.fast_ema_value < s.slow_ema_value) (hts : s.ticks = t :: ts)
    (hq : 0 < sizer (entrySizerArgs s t.bid
        (bar.high + s.atr_value * s.SL_atr_multiple + s.average_spread))) :
    entryDecision sizer s bar =
      [Action.submitAtomic
        { symbol := s.symbol
          order_side := OrderSide.sell
          quantity := sizer (entrySizerArgs s t.bid
            (bar.high + s.atr_value * s.SL_atr_multiple + s.average_spread))
          price_stop_loss := bar.high + s.atr_value * s.SL_atr_multiple + s.average_spread
          price_take_profit :=
            t.bid - ((bar.high + s.atr_value * s.SL_atr_multiple + s.average_spread) - t.bid) }
        s.next_position_id] := by
  simp [entryDecision, hw, hf, not_le.mpr hx, hts, hq]

/-- BUY entry with a non-positive sized quantity: the entry block only
logs the insufficient-equity message. -/
theorem entryDecision_buy_zero (sizer : Sizer) (s : StrategyState) (bar : Bar)
    (t : Tick) (ts : List Tick)
    (hw : s.orders_working = []) (hf : s.is_flat = true)
    (hx : s.slow_ema_value ≤ s.fast_ema_value) (hts : s.ticks = t :: ts)
    (hq : sizer (entrySizerArgs s t.ask (bar.low - s.atr_value * s.SL_atr_multiple)) ≤ 0) :
    entryDecision sizer s bar = [Action.logInfo "Insufficient equity for BUY signal."] := by
  simp [entryDecision, hw, hf, hx, hts, not_lt.mpr hq]

/-- SELL entry with a non-positive sized quantity: the entry block only
logs the insufficient-equity message. -/
theorem entryDecision_sell_zero (sizer : Sizer) (s : StrategyState) (bar : Bar)
    (t : Tick) (ts : List Tick)
    (hw : s.orders_working = []) (hf : s.is_flat = true)
    (hx : s.fast_ema_value < s.slow_ema_value) (hts : s.ticks = t :: ts)
    (hq : sizer (entrySizerArgs s t.bid
        (bar.high + s.atr_value * s.SL_atr_multiple + s.average_spread)) ≤ 0) :
    entryDecision sizer s bar = [Action.logInfo "Insufficient equity for SELL signal."] := by
  simp [entryDecision, hw, hf, not_le.mpr hx, hts, not_lt.mpr hq]

/-- `on_bar` with all guards passing is the bar log, the entry block's
actions, then the trailing-stop loop's modifications. -/
theorem on_bar_ready (sizer : Sizer) (s : StrategyState) (bar : Bar)
    (hi : indicators_initialized s = true) (ht : has_ticks s = true) :
    on_bar sizer s bar =
      Action.logInfo "Received Bar" ::
        (entryDecision sizer s bar ++
          s.orders_working.filterMap
            (trailingModify s.SL_atr_multiple s.atr_value s.average_spread bar)) := by
  simp [on_bar, hi, ht]

/-- `on_bar` with an empty tick buffer only logs the received bar. -/
theorem on_bar_no_ticks (sizer : Sizer) (s : StrategyState) (bar : Bar)
    (h : s.ticks = []) :
    on_bar sizer s bar = [Action.logInfo "Received Bar"] := by
  cases hI : indicators_initialized s <;> simp [on_bar, has_ticks, h, hI]

/-- Any modification in `on_bar`'s output comes from the trailing-stop
loop applied to one of the working orders. -/
theorem on_bar_modify_mem (sizer : Sizer) (s : StrategyState) (bar : Bar)
    (o : Order) (q p : ℚ)
    (h : Action.modifyOrder o q p ∈ on_bar sizer s bar) :
    ∃ w ∈ s.orders_working,
      trailingModify s.SL_atr_multiple s.atr_value s.average_spread bar w =
        some (Action.modifyOrder o q p) := by
  simp only [on_bar, List.mem_cons] at h
  rcases h with h | h
  · simp at h
  · split at h
    · simp at h
    · split at h
      · simp at h
      · rcases List.mem_append.mp h with h | h
        · exact absurd h (entryDecision_no_modify sizer s bar o q p)
        · rcases List.mem_filterMap.mp h with ⟨w, hw, heq⟩
          exact ⟨w, hw, heq⟩

/-- Any submission in `on_bar`'s output comes from the entry block. -/
theorem on_bar_submit_mem (sizer : Sizer) (s : StrategyState) (bar : Bar)
    (a : AtomicOrder) (pid : ℕ)
    (h : Action.submitAtomic a pid ∈ on_bar sizer s bar) :
    Action.submitAtomic a pid ∈ entryDecision sizer s bar := by
  simp only [on_bar, List.mem_cons] at h
  rcases h with h | h
  · simp at h
  · split at h
    · simp at h
    · split at h
      · simp at h
      · rcases List.mem_append.mp h with h | h
        · exact h
        · rcases List.mem_filterMap.mp h with ⟨w, hw, heq⟩
          rcases trailingModify_some _ _ _ _ _ _ heq with ⟨-, hc | hc⟩ <;>
            exact absurd hc.2.1 (by simp)

/-- The trailing-stop loop's output holds no submissions. -/
theorem trailing_filter_submit (m a sp : ℚ) (bar : Bar) (l : List Order) :
    (l.filterMap (trailingModify m a sp bar)).filter Action.isSubmit = [] := by
  rw [List.filter_eq_nil_iff]
  intro act hact
  rcases List.mem_filterMap.mp hact with ⟨w, hw, heq⟩
  rcases trailingModify_some _ _ _ _ _ _ heq with ⟨-, hc | hc⟩ <;>
    simp [hc.2.1, Action.isSubmit]

/-- `on_bar` submits at most one atomic order per bar. -/
theorem on_bar_submit_count (sizer : Sizer) (s : StrategyState) (bar : Bar) :
    ((on_bar sizer s bar).filter Action.isSubmit).length ≤ 1 := by
  unfold on_bar
  rw [List.filter_cons]
  simp only [Action.isSubmit, Bool.false_eq_true, if_false]
  split
  · simp
  · split
    · simp
    · rw [List.filter_append, List.length_append, trailing_filter_submit]
      have h1 : ((entryDecision sizer s bar).filter Action.isSubmit).length ≤ 1 :=
        le_trans (List.length_filter_le _ _) (entryDecision_length_le sizer s bar)
      simpa using h1

/-- One trailing step never lowers a sell-side stop price. -/
theorem trailingNewPrice_sell_le (m a sp : ℚ) (bar : Bar) (o : Order)
    (h : o.side = OrderSide.sell) :
    o.price ≤ trailingNewPrice m a sp bar o := by
  unfold trailingNewPrice trailingModify Order.is_sell Order.is_buy
  rw [h]
  by_cases hp : o.purpose = OrderPurpose.stop_loss <;> simp [hp]
  split_ifs with hlt
  · simpa using le_of_lt hlt
  · simp

/-- One trailing step never raises a buy-side stop price. -/
theorem trailingNewPrice_buy_le (m a sp : ℚ) (bar : Bar) (o : Order)
    (h : o.side = OrderSide.buy) :
    trailingNewPrice m a sp bar o ≤ o.price := by
  unfold trailingNewPrice trailingModify Order.is_sell Order.is_buy
  rw [h]
  by_cases hp : o.purpose = OrderPurpose.stop_loss <;> simp [hp]
  split_ifs with hlt
  · simpa using le_of_lt hlt
  · simp

/-- Trailing a stop across bars never changes the order's side. -/
theorem trailStop_side (m : ℚ) (steps : List BarStep) (o : Order) :
    (trailStop m o steps).side = o.side := by
  induction steps generalizing o with
  | nil => rfl
  | cons st steps ih => exact (ih (trailStep m o st)).trans rfl

/-- Across any bar sequence, a sell-side stop price never decreases. -/
theorem trailStop_sell_mono (m : ℚ) (steps : List BarStep) (o : Order)
    (h : o.side = OrderSide.sell) :
    o.price ≤ (trailStop m o steps).price := by
  induction steps generalizing o with
  | nil => exact le_refl _
  | cons st steps ih =>
    exact le_trans (trailingNewPrice_sell_le m st.atr_value st.average_spread st.bar o h)
      (ih (trailStep m o st) h)

/-- Across any bar sequence, a buy-side stop price never increases. -/
theorem trailStop_buy_mono (m : ℚ) (steps : List BarStep) (o : Order)
    (h : o.side = OrderSide.buy) :
    (trailStop m o steps).price ≤ o.price := by
  induction steps generalizing o with
  | nil => exact le_refl _
  | cons st steps ih =>
    exact le_trans (ih (trailStep m o st) h)
      (trailingNewPrice_buy_le m st.atr_value st.average_spread st.bar o h)

/-- C1: Trailing-stop monotonic tightening.  Every order modification
`on_bar` requests concerns a WORKING order of purpose STOP_LOSS and
carries the side's candidate price — `bar.low - atr.value *
SL_atr_multiple` for a sell-side stop (protecting a long), requested only
when strictly above the current price; `bar.high + atr.value *
SL_atr_multiple + average_spread` for a buy-side stop (protecting a
short), requested only when strictly below the current price.  Hence
across any sequence of bars a sell-side stop price is monotonically
non-decreasing and a buy-side stop price is monotonically
non-increasing. -/
theorem trailing_stop_monotonic_tightening
    (sizer : Sizer) (s : StrategyState) (bar : Bar) (o : Order) (q p : ℚ)
    (m : ℚ) (o2 : Order) (steps : List BarStep)
    (hmem : Action.modifyOrder o q p ∈ on_bar sizer s bar) :
    (o.purpose = OrderPurpose.stop_loss ∧ q = o.quantity ∧
      (o.side = OrderSide.sell →
        p = bar.low - s.atr_value * s.SL_atr_multiple ∧ o.price < p) ∧
      (o.side = OrderSide.buy →
        p = bar.high + s.atr_value * s.SL_atr_multiple + s.average_spread ∧ p < o.price)) ∧
    (o2.side = OrderSide.sell → o2.price ≤ (trailStop m o2 steps).price) ∧
    (o2.side = OrderSide.buy → (trailStop m o2 steps).price ≤ o2.price) := by
  refine ⟨?_, fun h2 => trailStop_sell_mono m steps o2 h2,
    fun h2 => trailStop_buy_mono m steps o2 h2⟩
  rcases on_bar_modify_mem sizer s bar o q p hmem with ⟨w, hw, heq⟩
  rcases trailingModify_some _ _ _ _ _ _ heq with ⟨hp, hc | hc⟩ <;>
    obtain ⟨hside, hact, hlt⟩ := hc <;>
    simp only [Action.modifyOrder.injEq] at hact <;>
    obtain ⟨how, hoq, hop⟩ := hact <;>
    subst how <;> subst hoq <;> subst hop
  · exact ⟨hp, rfl, fun _ => ⟨rfl, hlt⟩,
      fun hb => absurd (hside.symm.trans hb) (by decide)⟩
  · exact ⟨hp, rfl, fun hb => absurd (hside.symm.trans hb) (by decide),
      fun _ => ⟨rfl, hlt⟩⟩

/-- C1 witness: on a concrete state holding one working sell-side
stop-loss at price 90, with bar low 95, ATR 2 and multiple 2, `on_bar`
requests a modification to 91, and the theorem's conclusions hold there,
including monotonicity across a concrete two-bar sequence. -/
theorem trailing_stop_monotonic_tightening_check :
    (Action.modifyOrder sellStopOrder 3 91 ∈ on_bar sizerZero trailingOrderState sampleBar) ∧
    ((sellStopOrder.purpose = OrderPurpose.stop_loss ∧ (3 : ℚ) = sellStopOrder.quantity ∧
      (sellStopOrder.side = OrderSide.sell →
        (91 : ℚ) = sampleBar.low - trailingOrderState.atr_value * trailingOrderState.SL_atr_multiple ∧
          sellStopOrder.price < 91) ∧
      (sellStopOrder.side = OrderSide.buy →
        (91 : ℚ) = sampleBar.high + trailingOrderState.atr_value * trailingOrderState.SL_atr_multiple +
            trailingOrderState.average_spread ∧ (91 : ℚ) < sellStopOrder.price)) ∧
    (sellStopOrder.side = OrderSide.sell →
      sellStopOrder.price ≤ (trailStop 2 sellStopOrder sampleSteps).price) ∧
    (sellStopOrder.side = OrderSide.buy →
      (trailStop 2 sellStopOrder sampleSteps).price ≤ sellStopOrder.price)) :=
  ⟨by norm_num [on_bar, indicators_initialized, has_ticks, trailingOrderState, warmState,
      sellStopOrder, sampleBar, sampleTick, entryDecision, trailingModify,
      Order.is_sell, Order.is_buy, sizerZero],
   trailing_stop_monotonic_tightening sizerZero trailingOrderState sampleBar
     sellStopOrder 3 91 2 sellStopOrder sampleSteps
     (by norm_num [on_bar, indicators_initialized, has_ticks, trailingOrderState, warmState,
        sellStopOrder, sampleBar, sampleTick, entryDecision, trailingModify,
        Order.is_sell, Order.is_buy, sizerZero])⟩

/-- C2: At most one open action.  Once indicators are initialized, any
atomic order `on_bar` submits was submitted with no working orders and a
flat position, and at most one atomic order is submitted per bar; hence
no additional atomic order is ever submitted while a position is open or
an order is WORKING. -/
theorem at_most_one_open_action
    (sizer : Sizer) (s : StrategyState) (bar : Bar) (a : AtomicOrder) (pid : ℕ)
    (hinit : indicators_initialized s = true)
    (hmem : Action.submitAtomic a pid ∈ on_bar sizer s bar) :
    s.orders_working = [] ∧ s.is_flat = true ∧
      ((on_bar sizer s bar).filter Action.isSubmit).length ≤ 1 := by
  have h := entryDecision_guard sizer s bar _ (on_bar_submit_mem sizer s bar a pid hmem)
  exact ⟨h.1, h.2, on_bar_submit_count sizer s bar⟩

/-- C2 witness: a concrete warmed-up flat state submits one atomic order
and the guard conclusions hold. -/
theorem at_most_one_open_action_check :
    indicators_initialized warmState = true ∧
    (Action.submitAtomic
        { symbol := "AUDUSD.FXCM", order_side := OrderSide.buy, quantity := 10000,
          price_stop_loss := 85, price_take_profit := 115 } 7 ∈
      on_bar sizerTenK warmState sampleBar) ∧
    (warmState.orders_working = [] ∧ warmState.is_flat = true ∧
      ((on_bar sizerTenK warmState sampleBar).filter Action.isSubmit).length ≤ 1) :=
  ⟨by decide,
   by norm_num [on_bar, indicators_initialized, has_ticks, warmState, sampleBar, sampleTick,
      entryDecision, trailingModify, entrySizerArgs, sizerTenK],
   at_most_one_open_action sizerTenK warmState sampleBar
     { symbol := "AUDUSD.FXCM", order_side := OrderSide.buy, quantity := 10000,
       price_stop_loss := 85, price_take_profit := 115 } 7 (by decide)
     (by norm_num [on_bar, indicators_initialized, has_ticks, warmState, sampleBar, sampleTick,
        entryDecision, trailingModify, entrySizerArgs, sizerTenK])⟩

/-- C3: Warm-up hard precondition.  When not all registered indicators
are initialized, `on_bar` only logs the received bar: no atomic order is
constructed or submitted and no modification or flatten is requested. -/
theorem warmup_hard_precondition
    (sizer : Sizer) (s : StrategyState) (bar : Bar)
    (h : indicators_initialized s = false) :
    on_bar sizer s bar = [Action.logInfo "Received Bar"] ∧
      ∀ a ∈ on_bar sizer s bar, a.isTrading = false := by
  have h1 : on_bar sizer s bar = [Action.logInfo "Received Bar"] := by
    simp [on_bar, h]
  refine ⟨h1, ?_⟩
  rw [h1]
  intro a ha
  simp only [List.mem_singleton] at ha
  subst ha
  rfl

/-- C3 witness: a concrete state with the ATR uninitialized produces
only the bar log. -/
theorem warmup_hard_precondition_check :
    indicators_initialized coldState = false ∧
    (on_bar sizerTenK coldState sampleBar = [Action.logInfo "Received Bar"] ∧
      ∀ a ∈ on_bar sizerTenK coldState sampleBar, a.isTrading = false) :=
  ⟨by decide, warmup_hard_precondition sizerTenK coldState sampleBar (by decide)⟩

/-- C4: Flatten on entry rejection.  On an `OrderRejected` event the
handler looks up the position for the rejected order's id: when a
position exists and is open it issues a flatten for that position within
the same event cycle; when no position exists, or the position is not
open, no flatten is issued. -/
theorem flatten_on_entry_rejection
    (pfo : ℕ → Option Position) (oid1 oid2 oid3 : ℕ) (purp : OrderPurpose)
    (p1 p3 : Position)
    (h1 : pfo oid1 = some p1) (h1o : p1.is_open = true)
    (h2 : pfo oid2 = none)
    (h3 : pfo oid3 = some p3) (h3o : p3.is_open = false) :
    on_event pfo (Event.orderRejected oid1 purp) = [Action.flattenPosition p1.id] ∧
    on_event pfo (Event.orderRejected oid2 purp) = [] ∧
    on_event pfo (Event.orderRejected oid3 purp) = [] := by
  refine ⟨?_, ?_, ?_⟩ <;> simp [on_event, h1, h1o, h2, h3, h3o]

/-- C4 witness: a concrete lookup where order 1 maps to an open position
(flattened), order 2 to no position and order 3 to a closed position
(no flatten). -/
theorem flatten_on_entry_rejection_check :
    samplePositions 1 = some { id := 11, is_open := true } ∧
    samplePositions 2 = none ∧
    samplePositions 3 = some { id := 13, is_open := false } ∧
    (on_event samplePositions (Event.orderRejected 1 OrderPurpose.entry) =
        [Action.flattenPosition 11] ∧
      on_event samplePositions (Event.orderRejected 2 OrderPurpose.entry) = [] ∧
      on_event samplePositions (Event.orderRejected 3 OrderPurpose.entry) = []) :=
  ⟨by decide, by decide, by decide,
   flatten_on_entry_rejection samplePositions 1 2 3 OrderPurpose.entry
     { id := 11, is_open := true } { id := 13, is_open := false }
     (by decide) (by decide) (by decide) (by decide) (by decide)⟩

/-- C5: Entry-scenario correctness.  Flat, no working orders, indicators
initialized and a tick recorded: with the fast EMA at or above the slow
EMA and a positive sized quantity, `on_bar` submits exactly one BUY
atomic market order entered at the current ask with stop-loss
`bar.low - atr.value * SL_atr_multiple` and take-profit
`entry + (entry - stop)`; symmetrically, with the fast EMA below the slow
EMA it submits a SELL atomic order entered at the current bid with
stop-loss `bar.high + atr.value * SL_atr_multiple + average_spread` and
take-profit `entry - (stop - entry)`. -/
theorem entry_scenario_prices
    (sizerB sizerS : Sizer) (sB sS : StrategyState) (barB barS : Bar)
    (tB tS : Tick) (tsB tsS : List Tick)
    (hwB : sB.orders_working = []) (hfB : sB.is_flat = true)
    (hiB : indicators_initialized sB = true) (htB : sB.ticks = tB :: tsB)
    (hxB : sB.slow_ema_value ≤ sB.fast_ema_value)
    (hqB : 0 < sizerB (entrySizerArgs sB tB.ask (barB.low - sB.atr_value * sB.SL_atr_multiple)))
    (hwS : sS.orders_working = []) (hfS : sS.is_flat = true)
    (hiS : indicators_initialized sS = true) (htS : sS.ticks = tS :: tsS)
    (hxS : sS.fast_ema_value < sS.slow_ema_value)
    (hqS : 0 < sizerS (entrySizerArgs sS tS.bid
        (barS.high + sS.atr_value * sS.SL_atr_multiple + sS.average_spread))) :
    on_bar sizerB sB barB =
      [Action.logInfo "Received Bar",
       Action.submitAtomic
         { symbol := sB.symbol
           order_side := OrderSide.buy
           quantity := sizerB (entrySizerArgs sB tB.ask (barB.low - sB.atr_value * sB.SL_atr_multiple))
           price_stop_loss := barB.low - sB.atr_value * sB.SL_atr_multiple
           price_take_profit :=
             tB.ask + (tB.ask - (barB.low - sB.atr_value * sB.SL_atr_multiple)) }
         sB.next_position_id] ∧
    on_bar sizerS sS barS =
      [Action.logInfo "Received Bar",
       Action.submitAtomic
         { symbol := sS.symbol
           order_side := OrderSide.sell
           quantity := sizerS (entrySizerArgs sS tS.bid
             (barS.high + sS.atr_value * sS.SL_atr_multiple + sS.average_spread))
           price_stop_loss := barS.high + sS.atr_value * sS.SL_atr_multiple + sS.average_spread
           price_take_profit :=
             tS.bid - ((barS.high + sS.atr_value * sS.SL_atr_multiple + sS.average_spread) - tS.bid) }
         sS.next_position_id] := by
  constructor
  · rw [on_bar_ready sizerB sB barB hiB (by simp [has_ticks, htB]),
      entryDecision_buy_eq sizerB sB barB tB tsB hwB hfB hxB htB hqB, hwB]
    rfl
  · rw [on_bar_ready sizerS sS barS hiS (by simp [has_ticks, htS]),
      entryDecision_sell_eq sizerS sS barS tS tsS hwS hfS hxS htS hqS, hwS]
    rfl

/-- C5 witness: the spec's scenario — ATR 5, multiple 2, entry ask 100,
bar low 95 gives stop 85 = bar.low - 10 and take-profit 115 = entry +
(entry - stop); the symmetric SELL scenario enters at bid 99 with stop
112 = bar.high + 10 + 1 and take-profit 86 = entry - (stop - entry). -/
theorem entry_scenario_prices_check :
    warmState.orders_working = [] ∧ warmState.is_flat = true ∧
    indicators_initialized warmState = true ∧ warmState.ticks = [sampleTick] ∧
    warmState.slow_ema_value ≤ warmState.fast_ema_value ∧
    sellSignalState.fast_ema_value < sellSignalState.slow_ema_value ∧
    (on_bar sizerTenK warmState sampleBar =
      [Action.logInfo "Received Bar",
       Action.submitAtomic
         { symbol := warmState.symbol
           order_side := OrderSide.buy
           quantity := sizerTenK (entrySizerArgs warmState sampleTick.ask
             (sampleBar.low - warmState.atr_value * warmState.SL_atr_multiple))
           price_stop_loss := sampleBar.low - warmState.atr_value * warmState.SL_atr_multiple
           price_take_profit := sampleTick.ask + (sampleTick.ask -
             (sampleBar.low - warmState.atr_value * warmState.SL_atr_multiple)) }
         warmState.next_position_id] ∧
     on_bar sizerTenK sellSignalState sampleBar =
      [Action.logInfo "Received Bar",
       Action.submitAtomic
         { symbol := sellSignalState.symbol
           order_side := OrderSide.sell
           quantity := sizerTenK (entrySizerArgs sellSignalState sampleTick.bid
             (sampleBar.high + sellSignalState.atr_value * sellSignalState.SL_atr_multiple +
               sellSignalState.average_spread))
           price_stop_loss := sampleBar.high + sellSignalState.atr_value *
             sellSignalState.SL_atr_multiple + sellSignalState.average_spread
           price_take_profit := sampleTick.bid - ((sampleBar.high +
             sellSignalState.atr_value * sellSignalState.SL_atr_multiple +
             sellSignalState.average_spread) - sampleTick.bid) }
         sellSignalState.next_position_id]) :=
  ⟨rfl, rfl, rfl, rfl, by norm_num [warmState], by norm_num [sellSignalState, warmState],
   entry_scenario_prices sizerTenK sizerTenK warmState sellSignalState sampleBar sampleBar
     sampleTick sampleTick [] []
     rfl rfl rfl rfl (by norm_num [warmState]) (by norm_num [sizerTenK])
     rfl rfl rfl rfl (by norm_num [sellSignalState, warmState]) (by norm_num [sizerTenK])⟩

/-- C6: Zero-size abstain.  When the position sizer reports a quantity
not strictly greater than zero at the arguments `on_bar` passes it, no
atomic order is constructed or submitted: the handler logs the
insufficient-equity message for the signal's side and returns normally
(its output is exactly the two log lines; `on_bar` is a total function,
so the strategy keeps running). -/
theorem zero_size_abstain
    (sizerB sizerS : Sizer) (sB sS : StrategyState) (barB barS : Bar)
    (tB tS : Tick) (tsB tsS : List Tick)
    (hwB : sB.orders_working = []) (hfB : sB.is_flat = true)
    (hiB : indicators_initialized sB = true) (htB : sB.ticks = tB :: tsB)
    (hxB : sB.slow_ema_value ≤ sB.fast_ema_value)
    (hqB : sizerB (entrySizerArgs sB tB.ask (barB.low - sB.atr_value * sB.SL_atr_multiple)) ≤ 0)
    (hwS : sS.orders_working = []) (hfS : sS.is_flat = true)
    (hiS : indicators_initialized sS = true) (htS : sS.ticks = tS :: tsS)
    (hxS : sS.fast_ema_value < sS.slow_ema_value)
    (hqS : sizerS (entrySizerArgs sS tS.bid
        (barS.high + sS.atr_value * sS.SL_atr_multiple + sS.average_spread)) ≤ 0) :
    on_bar sizerB sB barB =
      [Action.logInfo "Received Bar", Action.logInfo "Insufficient equity for BUY signal."] ∧
    on_bar sizerS sS barS =
      [Action.logInfo "Received Bar", Action.logInfo "Insufficient equity for SELL signal."] ∧
    (∀ x ∈ on_bar sizerB sB barB, x.isSubmit = false) ∧
    (∀ x ∈ on_bar sizerS sS barS, x.isSubmit = false) := by
  have h1 : on_bar sizerB sB barB =
      [Action.logInfo "Received Bar", Action.logInfo "Insufficient equity for BUY signal."] := by
    rw [on_bar_ready sizerB sB barB hiB (by simp [has_ticks, htB]),
      entryDecision_buy_zero sizerB sB barB tB tsB hwB hfB hxB htB hqB, hwB]
    rfl
  have h2 : on_bar sizerS sS barS =
      [Action.logInfo "Received Bar", Action.logInfo "Insufficient equity for SELL signal."] := by
    rw [on_bar_ready sizerS sS barS hiS (by simp [has_ticks, htS]),
      entryDecision_sell_zero sizerS sS barS tS tsS hwS hfS hxS htS hqS, hwS]
    rfl
  refine ⟨h1, h2, ?_, ?_⟩ <;> intro x hx
  · rw [h1] at hx
    simp only [List.mem_cons, List.not_mem_nil, or_false] at hx
    rcases hx with hx | hx <;> subst hx <;> rfl
  · rw [h2] at hx
    simp only [List.mem_cons, List.not_mem_nil, or_false] at hx
    rcases hx with hx | hx <;> subst hx <;> rfl

/-- C6 witness: with a sizer reporting zero, the BUY-signal state and the
SELL-signal state each produce only the bar log and the side's
insufficient-equity log. -/
theorem zero_size_abstain_check :
    warmState.orders_working = [] ∧ warmState.is_flat = true ∧
    sizerZero (entrySizerArgs warmState sampleTick.ask
      (sampleBar.low - warmState.atr_value * warmState.SL_atr_multiple)) ≤ 0 ∧
    (on_bar sizerZero warmState sampleBar =
      [Action.logInfo "Received Bar", Action.logInfo "Insufficient equity for BUY signal."] ∧
     on_bar sizerZero sellSignalState sampleBar =
      [Action.logInfo "Received Bar", Action.logInfo "Insufficient equity for SELL signal."] ∧
     (∀ x ∈ on_bar sizerZero warmState sampleBar, x.isSubmit = false) ∧
     (∀ x ∈ on_bar sizerZero sellSignalState sampleBar, x.isSubmit = false)) :=
  ⟨rfl, rfl, by norm_num [sizerZero],
   zero_size_abstain sizerZero sizerZero warmState sellSignalState sampleBar sampleBar
     sampleTick sampleTick [] []
     rfl rfl rfl rfl (by norm_num [warmState]) (by norm_num [sizerZero])
     rfl rfl rfl rfl (by norm_num [sellSignalState, warmState]) (by norm_num [sizerZero])⟩

/-- C7 counterexample: the claim says construction fails for every
configuration value outside its domain, in particular for
`risk_bp ≤ 0`; but constructing the strategy with `risk_bp = -1`
(all other values in range) succeeds — `__init__` stores the value
without any domain check. -/
theorem construction_accepts_nonpositive_risk :
    (-1 : ℚ) ≤ 0 ∧
      (strategyInit "AUDUSD.FXCM" (-1) 10 20 20 2).isSome = true ∧
      Option.map InitState.risk_bp (strategyInit "AUDUSD.FXCM" (-1) 10 20 20 2) =
        some (-1) := by
  refine ⟨by norm_num, rfl, rfl⟩

/-- C7 amended: `__init__` performs no domain validation: for every
configuration (including `risk_bp ≤ 0` or `sl_atr_multiple ≤ 0`)
construction succeeds, storing `risk_bp`, `sl_atr_multiple` and the
three indicator periods unchanged, so any failure from an out-of-domain
value is deferred to use rather than raised at construction.  (The
period arguments are forwarded to the external `nautilus_indicators`
constructors, outside this repository's files; `risk_bp` and
`sl_atr_multiple` flow into no external call at construction time.) -/
theorem construction_stores_config_unvalidated
    (sym : Symbol) (risk_bp slm : ℚ) (fe se ap : ℤ) :
    (strategyInit sym risk_bp fe se ap slm).isSome = true ∧
    Option.map InitState.risk_bp (strategyInit sym risk_bp fe se ap slm) = some risk_bp ∧
    Option.map InitState.SL_atr_multiple (strategyInit sym risk_bp fe se ap slm) = some slm ∧
    Option.map InitState.fast_ema_period (strategyInit sym risk_bp fe se ap slm) = some fe ∧
    Option.map InitState.slow_ema_period (strategyInit sym risk_bp fe se ap slm) = some se ∧
    Option.map InitState.atr_period (strategyInit sym risk_bp fe se ap slm) = some ap :=
  ⟨rfl, rfl, rfl, rfl, rfl, rfl⟩

/-- C8: Instrument-cache frame property.  With a cached instrument whose
symbol is the strategy's symbol (the invariant `on_start` establishes),
`on_instrument` replaces the cached instrument exactly when the received
instrument's symbol equals the strategy's symbol, leaving every other
field unchanged; when the symbols differ the whole state is unchanged.
The handler only logs in addition. -/
theorem instrument_cache_update_frame
    (s : StrategyState) (cached rin rout : Instrument)
    (hc : s.instrument = some cached) (hsym : cached.symbol = s.symbol)
    (hin : rin.symbol = s.symbol) (hout : rout.symbol ≠ s.symbol) :
    on_instrument s rin =
      some ({ s with instrument := some rin }, [Action.logInfo "Updated instrument."]) ∧
    on_instrument s rout =
      some (s, [Action.logInfo "Updated instrument."]) := by
  constructor
  · simp only [on_instrument, hc]
    rw [if_pos (hsym.trans hin.symm)]
  · simp only [on_instrument, hc]
    rw [if_neg fun hcon => hout (hcon.symm.trans hsym)]

/-- C8 witness: updating with a same-symbol instrument replaces only the
cached instrument; updating with a different-symbol instrument leaves the
state unchanged. -/
theorem instrument_cache_update_frame_check :
    instrState.instrument = some audUsd ∧
    audUsd.symbol = instrState.symbol ∧
    audUsdNew.symbol = instrState.symbol ∧
    gbpUsd.symbol ≠ instrState.symbol ∧
    (on_instrument instrState audUsdNew =
        some ({ instrState with instrument := some audUsdNew },
          [Action.logInfo "Updated instrument."]) ∧
      on_instrument instrState gbpUsd =
        some (instrState, [Action.logInfo "Updated instrument."])) :=
  ⟨rfl, rfl, rfl, by decide,
   instrument_cache_update_frame instrState audUsd audUsdNew gbpUsd
     rfl rfl rfl (by decide)⟩

/-- C9: Implicit tick-availability guard.  With an empty tick buffer
`on_bar` only logs the received bar — no trading action of any kind is
taken on a bar stream alone; and whenever `on_bar` submits an atomic
order, the tick buffer was non-empty, so the access to the most recent
tick (index 0, the buffer's head) that priced the entry was
well-defined. -/
theorem tick_availability_guard
    (sizer sizer2 : Sizer) (s s2 : StrategyState) (bar bar2 : Bar)
    (a : AtomicOrder) (pid : ℕ)
    (h : s.ticks = [])
    (hsub : Action.submitAtomic a pid ∈ on_bar sizer2 s2 bar2) :
    on_bar sizer s bar = [Action.logInfo "Received Bar"] ∧
    (∀ x ∈ on_bar sizer s bar, x.isTrading = false) ∧
    s2.ticks ≠ [] := by
  have h1 := on_bar_no_ticks sizer s bar h
  refine ⟨h1, ?_, ?_⟩
  · rw [h1]
    intro x hx
    simp only [List.mem_singleton] at hx
    subst hx
    rfl
  · intro h2
    rw [on_bar_no_ticks sizer2 s2 bar2 h2] at hsub
    simp at hsub

/-- C9 witness: a concrete tickless state produces only the bar log,
while a state that submits has a non-empty tick buffer. -/
theorem tick_availability_guard_check :
    noTickState.ticks = [] ∧
    (Action.submitAtomic
        { symbol := "AUDUSD.FXCM", order_side := OrderSide.buy, quantity := 10000,
          price_stop_loss := 85, price_take_profit := 115 } 7 ∈
      on_bar sizerTenK warmState sampleBar) ∧
    (on_bar sizerTenK noTickState sampleBar = [Action.logInfo "Received Bar"] ∧
      (∀ x ∈ on_bar sizerTenK noTickState sampleBar, x.isTrading = false) ∧
      warmState.ticks ≠ []) :=
  ⟨rfl,
   by norm_num [on_bar, indicators_initialized, has_ticks, warmState, sampleBar, sampleTick,
      entryDecision, trailingModify, entrySizerArgs, sizerTenK],
   tick_availability_guard sizerTenK sizerTenK noTickState warmState sampleBar sampleBar
     { symbol := "AUDUSD.FXCM", order_side := OrderSide.buy, quantity := 10000,
       price_stop_loss := 85, price_take_profit := 115 } 7 rfl
     (by norm_num [on_bar, indicators_initialized, has_ticks, warmState, sampleBar, sampleTick,
        entryDecision, trailingModify, entrySizerArgs, sizerTenK])⟩

/-- C10: Implicit flatten breadth.  The flatten-on-reject handler never
inspects the rejected order's purpose: for every purpose — including a
protective STOP_LOSS or TAKE_PROFIT leg rejected after a filled entry —
an `OrderRejected` whose order maps to an open position flattens that
position, and no (re-)submission of the rejected leg is issued. -/
theorem flatten_on_any_rejected_purpose
    (pfo : ℕ → Option Position) (oid : ℕ) (purp : OrderPurpose) (p : Position)
    (h : pfo oid = some p) (ho : p.is_open = true) :
    on_event pfo (Event.orderRejected oid purp) = [Action.flattenPosition p.id] ∧
    ∀ x ∈ on_event pfo (Event.orderRejected oid purp), x.isSubmit = false := by
  have h1 : on_event pfo (Event.orderRejected oid purp) = [Action.flattenPosition p.id] := by
    simp [on_event, h, ho]
  refine ⟨h1, ?_⟩
  rw [h1]
  intro x hx
  simp only [List.mem_singleton] at hx
  subst hx
  rfl

/-- C10 witness: rejecting a STOP_LOSS-purpose order mapping to an open
position flattens the position and submits nothing. -/
theorem flatten_on_any_rejected_purpose_check :
    samplePositions 1 = some { id := 11, is_open := true } ∧
    (on_event samplePositions (Event.orderRejected 1 OrderPurpose.stop_loss) =
        [Action.flattenPosition 11] ∧
      ∀ x ∈ on_event samplePositions (Event.orderRejected 1 OrderPurpose.stop_loss),
        x.isSubmit = false) :=
  ⟨by decide,
   flatten_on_any_rejected_purpose samplePositions 1 OrderPurpose.stop_loss
     { id := 11, is_open := true } (by decide) (by decide)⟩

end EmaCrossMarketEntry
